import Mathlib

/-!
Shallow embedding of the Weather_App RAG pipeline (`src/ai_services.py`).

External effects (the sentence-transformer encoder, the Pinecone index and
the Anthropic chat backend) are modelled as oracles: functions returning
`Except String _` where the Python call can raise.  Python exceptions that
the source catches become `Except.error` values consumed at the same
places the Python `try/except` blocks sit.  Floating-point scores are
modelled as rationals.
-/

namespace WeatherApp

/-- Python `str.lower()`: lower-case every character. -/
def pyLower (s : String) : String := ⟨s.data.map Char.toLower⟩

/-- Does `n` occur as a prefix of some suffix of the second list? -/
def pyInAux (n : List Char) : List Char → Bool
  | [] => n.isPrefixOf []
  | c :: cs => n.isPrefixOf (c :: cs) || pyInAux n cs

/-- `needle in hay` for Python strings: substring membership. -/
def pyIn (needle hay : String) : Bool := pyInAux needle.data hay.data

/-- Accumulator pass for `pySplit`: `cur` holds the reversed current token. -/
def pySplitAux : List Char → List Char → List String
  | [], cur => if cur.isEmpty then [] else [⟨cur.reverse⟩]
  | c :: cs, cur =>
    if c.isWhitespace then
      (if cur.isEmpty then [] else [⟨cur.reverse⟩]) ++ pySplitAux cs []
    else
      pySplitAux cs (c :: cur)

/-- Python `str.split()` with no argument: the maximal non-empty runs of
non-whitespace characters, in order; never produces empty tokens. -/
def pySplit (s : String) : List String := pySplitAux s.data []

/-- Python `dict.get(key, default)` over an association-list model of a dict. -/
def pyGet (d : List (String × String)) (key dflt : String) : String :=
  match d.find? (fun p => p.1 == key) with
  | some p => p.2
  | none => dflt

/-- Python `"\n".join(xs)`. -/
def joinLines : List String → String
  | [] => ""
  | [a] => a
  | a :: b :: rest => a ++ "\n" ++ joinLines (b :: rest)

/-- One entry of the curated knowledge corpus
(`WeatherKnowledgeBase._load_weather_knowledge`): id, content, category,
plus the auxiliary metadata tags. -/
structure KnowledgeItem where
  id : String
  content : String
  category : String
  extra : List (String × String) := []
deriving Repr, DecidableEq

/-- A retrieved passage handed from retrieval to generation:
`{"content": ..., "score": ..., "category": ...}`. -/
structure RetrievedPassage where
  content : String
  score : ℚ
  category : String
deriving Repr, DecidableEq

/-- `WeatherKnowledgeBase`: the sentence-transformer model (an oracle that
may fail) plus the static knowledge list. -/
structure WeatherKnowledgeBase where
  model : String → Except String (List ℚ)
  knowledge_data : List KnowledgeItem

/-- `WeatherKnowledgeBase.create_embeddings`: for every item encode
`f"{item['content']} {item['category']}"`; any exception from the model
propagates (there is no `try` in this method). -/
def create_embeddings (kb : WeatherKnowledgeBase) : Except String (List (String × List ℚ)) :=
  kb.knowledge_data.mapM (fun item => do
    let embedding ← kb.model (item.content ++ " " ++ item.category)
    pure (item.id, embedding))

/-- Metadata stored with a Pinecone match (`match["metadata"]`). -/
structure MatchMetadata where
  content : String
  category : String
deriving Repr, DecidableEq

/-- One match returned by `index.query`. -/
structure PineMatch where
  metadata : MatchMetadata
  score : ℚ
deriving Repr, DecidableEq

/-- A vector uploaded by `upsert_knowledge`. -/
structure PineVector where
  id : String
  values : List ℚ
  metadata : List (String × String)
deriving Repr, DecidableEq

/-- The live Pinecone index handle: both operations are external calls that
may raise, modelled as `Except`-returning oracles. -/
structure IndexHandle where
  query : List ℚ → Nat → Except String (List PineMatch)
  upsert : List PineVector → Except String Unit

/-- `PineconeManager` after construction: `index` is `none` when the API key
was absent or initialization failed. -/
structure PineconeManager where
  index : Option IndexHandle

/-- `embeddings[item["id"]]` dictionary lookup used by `upsert_knowledge`
(every id produced by `create_embeddings` is present). -/
def lookupEmbedding (embs : List (String × List ℚ)) (id : String) : List ℚ :=
  match embs.find? (fun p => p.1 == id) with
  | some p => p.2
  | none => []

/-- `PineconeManager.upsert_knowledge`: `False` when the index is absent;
otherwise build the vectors and upsert, converting any exception
(from embedding or from the index call) to `False`. -/
def upsert_knowledge (pm : PineconeManager) (kb : WeatherKnowledgeBase) : Bool :=
  match pm.index with
  | none => false
  | some idx =>
    match create_embeddings kb with
    | .error _ => false
    | .ok embeddings =>
      let vectors := kb.knowledge_data.map (fun item =>
        { id := item.id
          values := lookupEmbedding embeddings item.id
          metadata := ("content", item.content) :: ("category", item.category) :: item.extra
          : PineVector })
      match idx.upsert vectors with
      | .ok _ => true
      | .error _ => false

/-- `PineconeManager.search_knowledge`: `[]` when the index is absent;
otherwise query with `top_k` and project each match to
`{content, score, category}`, converting any exception to `[]`. -/
def search_knowledge (pm : PineconeManager) (query_embedding : List ℚ) (top_k : Nat := 3) :
    List RetrievedPassage :=
  match pm.index with
  | none => []
  | some idx =>
    match idx.query query_embedding top_k with
    | .error _ => []
    | .ok results =>
      results.map (fun m =>
        { content := m.metadata.content, score := m.score, category := m.metadata.category })

/-- The Anthropic client: one oracle covering the `messages.create` call and
the `message.content[0].text` extraction, either of which can raise. -/
structure ClaudeClient where
  create : String → Except String String

/-- `ClaudeAI` after construction: `client` is `none` when no API key. -/
structure ClaudeAI where
  client : Option ClaudeClient

/-- A weather reading: a Python dict rendered field-by-field into the
prompt, modelled as an association list of stringified values. -/
abbrev WeatherData := List (String × String)

/-- The `Current Weather Data` block built when `weather_data` is truthy. -/
def weather_block (wd : WeatherData) : String :=
  "\nCurrent Weather Data:\n- Location: " ++ pyGet wd "city" "Unknown" ++
  "\n- Temperature: " ++ pyGet wd "temperature" "N/A" ++
  "°F\n- Weather: " ++ pyGet wd "weather" "N/A" ++
  "\n- Humidity: " ++ pyGet wd "humidity" "N/A" ++
  "%\n- Wind Speed: " ++ pyGet wd "wind_speed" "N/A" ++ " mph\n"

/-- `weather_context` in `generate_response`: the empty string unless
`weather_data` is truthy (Python: `if weather_data:`, so `None` and the
empty dict both leave it empty). -/
def weather_context (weather_data : Option WeatherData) : String :=
  match weather_data with
  | none => ""
  | some wd => if wd.isEmpty then "" else weather_block wd

/-- The prompt f-string assembled inside `generate_response`. -/
def build_prompt (query : String) (context : List RetrievedPassage)
    (weather_data : Option WeatherData) : String :=
  let context_text := joinLines (context.map (fun item => "- " ++ item.content))
  "You are a helpful weather assistant. Answer the user's weather-related question using the provided context and current weather data.\n\n"
  ++ weather_context weather_data
  ++ "\n\nRelevant Knowledge:\n"
  ++ context_text
  ++ "\n\nUser Question: "
  ++ query
  ++ "\n\nProvide a helpful, accurate, and conversational response. If asking about current weather, use the current weather data. If asking about clothing recommendations or safety, use the relevant knowledge. Keep responses concise but informative."

/-- `ClaudeAI.generate_response`: fixed message when unconfigured; otherwise
call the backend on the assembled prompt and convert any exception to an
error-bearing string. -/
def generate_response (ai : ClaudeAI) (query : String) (context : List RetrievedPassage)
    (weather_data : Option WeatherData := none) : String :=
  match ai.client with
  | none => "AI service is not configured. Please set up your Anthropic API key."
  | some client =>
    match client.create (build_prompt query context weather_data) with
    | .ok text => text
    | .error e => "Sorry, I encountered an error generating a response: " ++ e

/-- The loop body of `WeatherRAGSystem._local_knowledge_search`: walk the
corpus appending every item one of whose query words occurs in the
lower-cased content or category. -/
def localSearchLoop (words : List String) : List KnowledgeItem → List RetrievedPassage
  | [] => []
  | item :: rest =>
    if words.any (fun word =>
        pyIn word (pyLower item.content) || pyIn word (pyLower item.category)) then
      { content := item.content, score := (0.8 : ℚ), category := item.category }
        :: localSearchLoop words rest
    else
      localSearchLoop words rest

/-- `WeatherRAGSystem._local_knowledge_search`: keyword fallback over the
corpus, truncated to `top_k`. -/
def _local_knowledge_search (kb : WeatherKnowledgeBase) (query : String)
    (top_k : Nat := 3) : List RetrievedPassage :=
  let query_lower := pyLower query
  (localSearchLoop (pySplit query_lower) kb.knowledge_data).take top_k

/-- `WeatherRAGSystem` after construction. -/
structure WeatherRAGSystem where
  knowledge_base : WeatherKnowledgeBase
  pinecone_manager : PineconeManager
  claude_ai : ClaudeAI
  embedder : String → Except String (List ℚ)

/-- The retrieval step of `answer_question`: vector search with the default
`top_k = 3`, falling back to the local keyword search when it is empty. -/
def retrieve_context (sys : WeatherRAGSystem) (query : String)
    (query_embedding : List ℚ) : List RetrievedPassage :=
  let relevant_context := search_knowledge sys.pinecone_manager query_embedding 3
  if relevant_context.isEmpty then
    _local_knowledge_search sys.knowledge_base query 3
  else
    relevant_context

/-- `WeatherRAGSystem.answer_question`: encode, retrieve, generate, with the
outer `try/except` catching whatever escapes (in this model only the
encoder can raise past the component boundaries). -/
def answer_question (sys : WeatherRAGSystem) (query : String)
    (weather_data : Option WeatherData := none) : String :=
  match sys.embedder query with
  | .error e => "Sorry, I couldn't process your question: " ++ e
  | .ok query_embedding =>
    generate_response sys.claude_ai query
      (retrieve_context sys query query_embedding) weather_data

/-! Concrete fixtures: the static corpus from
`WeatherKnowledgeBase._load_weather_knowledge`, and small concrete systems
used to instantiate the theorems below. -/

/-- The curated knowledge list of `_load_weather_knowledge`, verbatim. -/
def weather_knowledge_data : List KnowledgeItem := [
  { id := "temp_clothing_cold"
    content := "When temperatures are below 32°F (0°C), wear insulated layers, warm coat, gloves, hat, and waterproof boots. Consider thermal underwear for extended outdoor exposure."
    category := "clothing"
    extra := [("temperature_range", "below_freezing")] },
  { id := "temp_clothing_cool"
    content := "For temperatures 32-60°F (0-15°C), wear a light jacket or sweater, long pants, and closed-toe shoes. Layers are recommended for temperature changes."
    category := "clothing"
    extra := [("temperature_range", "cool")] },
  { id := "temp_clothing_mild"
    content := "At 60-75°F (15-24°C), light clothing like t-shirts, light sweaters, jeans or light pants work well. Perfect for most outdoor activities."
    category := "clothing"
    extra := [("temperature_range", "mild")] },
  { id := "temp_clothing_warm"
    content := "For 75-85°F (24-29°C), wear light, breathable clothing like cotton t-shirts, shorts, sundresses, and sandals. Stay hydrated."
    category := "clothing"
    extra := [("temperature_range", "warm")] },
  { id := "temp_clothing_hot"
    content := "Above 85°F (29°C), wear minimal, light-colored, loose-fitting clothing. Use sun protection, stay in shade when possible, and drink plenty of water."
    category := "clothing"
    extra := [("temperature_range", "hot")] },
  { id := "rain_safety"
    content := "During rain, carry an umbrella or wear waterproof clothing. Drive carefully with reduced speed and increased following distance. Avoid flooded roads."
    category := "safety"
    extra := [("weather_condition", "rain")] },
  { id := "snow_safety"
    content := "In snow conditions, wear appropriate footwear with good traction. Drive slowly and keep emergency supplies in your car. Clear snow from vehicle before driving."
    category := "safety"
    extra := [("weather_condition", "snow")] },
  { id := "humidity_effects"
    content := "High humidity (above 60%) makes temperatures feel warmer and can cause discomfort. Low humidity (below 30%) can cause dry skin and respiratory irritation."
    category := "weather_science"
    extra := [("topic", "humidity")] },
  { id := "wind_chill"
    content := "Wind chill occurs when wind speed combines with cold temperatures to make it feel colder than actual temperature. Important for exposed skin safety."
    category := "weather_science"
    extra := [("topic", "wind_chill")] },
  { id := "heat_index"
    content := "Heat index combines air temperature and humidity to determine perceived temperature. Values above 90°F indicate caution needed for outdoor activities."
    category := "weather_science"
    extra := [("topic", "heat_index")] },
  { id := "denver_altitude"
    content := "Denver's high altitude (5,280 feet) affects weather: lower air pressure, intense UV rays, rapid temperature changes, and dry air. Stay hydrated and use sun protection."
    category := "location_specific"
    extra := [("location", "denver")] },
  { id := "chicago_lake_effect"
    content := "Chicago experiences lake effect from Lake Michigan, creating cooler summers and moderating winter temperatures. Can cause sudden weather changes."
    category := "location_specific"
    extra := [("location", "chicago")] },
  { id := "los_angeles_marine_layer"
    content := "Los Angeles often has marine layer fog in mornings, especially in summer. Creates overcast conditions that typically clear by afternoon."
    category := "location_specific"
    extra := [("location", "los_angeles")] }]

/-- The knowledge base with the real corpus and a trivial encoder oracle. -/
def fullKb : WeatherKnowledgeBase := ⟨fun _ => .ok [], weather_knowledge_data⟩

/-- A backend whose successful completion is the empty string. -/
def emptyAnswerClient : ClaudeClient := ⟨fun _ => .ok ""⟩

/-- A fully working pipeline whose generative backend answers `""`. -/
def emptyAnswerSystem : WeatherRAGSystem :=
  { knowledge_base := ⟨fun _ => .ok [], []⟩
    pinecone_manager := ⟨none⟩
    claude_ai := ⟨some emptyAnswerClient⟩
    embedder := fun _ => .ok [] }

/-- A system with every backend unconfigured. -/
def offlineSystem : WeatherRAGSystem :=
  { knowledge_base := fullKb
    pinecone_manager := ⟨none⟩
    claude_ai := ⟨none⟩
    embedder := fun _ => .ok [] }

/-- A fixed passage used by the demo index handle. -/
def demoMatch : PineMatch := { metadata := ⟨"vector passage", "clothing"⟩, score := 9/10 }

/-- An index handle that always answers with (a truncation of) one match
and accepts every upsert. -/
def demoIndex : IndexHandle :=
  { query := fun _ top_k => .ok ([demoMatch].take top_k)
    upsert := fun _ => .ok () }

/-- A system whose vector index is configured and non-empty. -/
def vectorSystem : WeatherRAGSystem :=
  { knowledge_base := fullKb
    pinecone_manager := ⟨some demoIndex⟩
    claude_ai := ⟨none⟩
    embedder := fun _ => .ok [1] }

/-- A small corpus item used to instantiate per-item statements. -/
def demoItem : KnowledgeItem :=
  { id := "rain_safety", content := "During rain, carry an umbrella.", category := "safety" }

/-! Helper lemmas. -/

/-- A non-empty string concatenated with anything is non-empty. -/
theorem append_ne_empty_left (s t : String) (h : 0 < s.length) : s ++ t ≠ "" := by
  intro heq
  have hl := congrArg String.length heq
  rw [String.length_append] at hl
  have h0 : ("" : String).length = 0 := rfl
  omega

/-- The filter/map characterization of `localSearchLoop`. -/
theorem localSearchLoop_eq_filter_map (words : List String) (items : List KnowledgeItem) :
    localSearchLoop words items =
      (items.filter (fun item => words.any (fun word =>
          pyIn word (pyLower item.content) || pyIn word (pyLower item.category)))).map
        (fun item =>
          ({ content := item.content, score := (0.8 : ℚ), category := item.category } :
            RetrievedPassage)) := by
  induction items with
  | nil => rfl
  | cons item rest ih =>
    by_cases h : (words.any (fun word =>
        pyIn word (pyLower item.content) || pyIn word (pyLower item.category))) = true
    · simp only [localSearchLoop, List.filter_cons, h, if_pos, List.map_cons, ih]
    · simp only [localSearchLoop, List.filter_cons, h, if_neg, Bool.false_eq_true,
        not_false_eq_true, ih]

/-- C3: `_local_knowledge_search` lower-cases the query, splits it on
whitespace, keeps exactly the corpus items one of whose tokens occurs in
the lower-cased content or category, in corpus order, truncated to
`top_k`, all with the fixed score 0.8; and an empty token list yields `[]`. -/
theorem local_search_characterization (kb : WeatherKnowledgeBase) (query : String)
    (top_k : Nat) :
    (_local_knowledge_search kb query top_k =
      ((kb.knowledge_data.filter (fun item => (pySplit (pyLower query)).any (fun word =>
          pyIn word (pyLower item.content) || pyIn word (pyLower item.category)))).map
        (fun item =>
          ({ content := item.content, score := (0.8 : ℚ), category := item.category } :
            RetrievedPassage))).take top_k)
    ∧ (pySplit (pyLower query) = [] → _local_knowledge_search kb query top_k = [])
    ∧ (∀ p ∈ _local_knowledge_search kb query top_k, p.score = (0.8 : ℚ)) := by
  have hmain : _local_knowledge_search kb query top_k =
      ((kb.knowledge_data.filter (fun item => (pySplit (pyLower query)).any (fun word =>
          pyIn word (pyLower item.content) || pyIn word (pyLower item.category)))).map
        (fun item =>
          ({ content := item.content, score := (0.8 : ℚ), category := item.category } :
            RetrievedPassage))).take top_k := by
    simp only [_local_knowledge_search]
    rw [localSearchLoop_eq_filter_map]
  refine ⟨hmain, ?_, ?_⟩
  · intro hempty
    rw [hmain, hempty]
    simp
  · intro p hp
    rw [hmain] at hp
    have hp' := List.take_subset top_k _ hp
    obtain ⟨item, -, hitem⟩ := List.mem_map.mp hp'
    rw [← hitem]

/-- Witness for C3 at the real corpus: the empty query tokenizes to no
tokens and returns the empty list. -/
theorem local_search_characterization_witness :
    _local_knowledge_search fullKb "" 3 = [] :=
  (local_search_characterization fullKb "" 3).2.1 (by decide)

/-- C4: the local keyword search is case-insensitive: two queries that
agree after lower-casing return identical result lists over any corpus
and any `top_k`. -/
theorem local_search_case_insensitive (kb : WeatherKnowledgeBase) (q₁ q₂ : String)
    (top_k : Nat) (h : pyLower q₁ = pyLower q₂) :
    _local_knowledge_search kb q₁ top_k = _local_knowledge_search kb q₂ top_k := by
  simp only [_local_knowledge_search]
  rw [h]

/-- Witness for C4: the spec's own example, "WHAT TO WEAR" versus
"what to wear", over the real corpus. -/
theorem local_search_case_insensitive_witness :
    _local_knowledge_search fullKb "WHAT TO WEAR" 3 =
      _local_knowledge_search fullKb "what to wear" 3 :=
  local_search_case_insensitive fullKb "WHAT TO WEAR" "what to wear" 3 (by decide)

/-- C2: exactly one retrieval path serves each query: when the vector
search is non-empty, its result is handed to generation and the answer
does not depend on the corpus the keyword search would read; when it is
empty (including an unconfigured index), the keyword result — possibly
empty — is handed to generation.  The two are never merged. -/
theorem exactly_one_retrieval_path (sys : WeatherRAGSystem) (q : String)
    (w : Option WeatherData) (emb : List ℚ)
    (henc : sys.embedder q = .ok emb) :
    (search_knowledge sys.pinecone_manager emb 3 ≠ [] →
      answer_question sys q w =
          generate_response sys.claude_ai q (search_knowledge sys.pinecone_manager emb 3) w
        ∧ ∀ kb' : WeatherKnowledgeBase,
            answer_question { sys with knowledge_base := kb' } q w = answer_question sys q w)
    ∧ (search_knowledge sys.pinecone_manager emb 3 = [] →
        answer_question sys q w =
          generate_response sys.claude_ai q (_local_knowledge_search sys.knowledge_base q 3) w) := by
  constructor
  · intro hne
    have hfalse : (search_knowledge sys.pinecone_manager emb 3).isEmpty = false :=
      List.isEmpty_eq_false.mpr hne
    constructor
    · simp only [answer_question, henc, retrieve_context, hfalse, Bool.false_eq_true,
        if_neg, not_false_eq_true]
    · intro kb'
      simp only [answer_question, henc, retrieve_context, hfalse, Bool.false_eq_true,
        if_neg, not_false_eq_true]
  · intro hemp
    have htrue : (search_knowledge sys.pinecone_manager emb 3).isEmpty = true :=
      List.isEmpty_iff.mpr hemp
    simp only [answer_question, henc, retrieve_context, htrue, if_pos]

/-- Witness for C2: a configured index answering one passage serves the
request and the generated answer uses exactly the vector result. -/
theorem exactly_one_retrieval_path_witness :
    answer_question vectorSystem "what to wear" none =
      generate_response vectorSystem.claude_ai "what to wear"
        (search_knowledge vectorSystem.pinecone_manager [1] 3) none :=
  ((exactly_one_retrieval_path vectorSystem "what to wear" none [1] rfl).1 (by decide)).1

/-- C5: the passage list handed to generation has length at most three on
either path, given that the index honors the `top_k` bound it is passed
(the coordinator queries it with `top_k = 3`). -/
theorem retrieved_context_at_most_three (sys : WeatherRAGSystem) (q : String)
    (emb : List ℚ)
    (hidx : ∀ idx, sys.pinecone_manager.index = some idx →
      ∀ e k ms, idx.query e k = .ok ms → ms.length ≤ k) :
    (retrieve_context sys q emb).length ≤ 3 := by
  have hv : (search_knowledge sys.pinecone_manager emb 3).length ≤ 3 := by
    cases hidxEq : sys.pinecone_manager.index with
    | none => simp [search_knowledge, hidxEq]
    | some idx =>
      cases hq : idx.query emb 3 with
      | error e => simp [search_knowledge, hidxEq, hq]
      | ok ms =>
        simp only [search_knowledge, hidxEq, hq, List.length_map]
        exact hidx idx hidxEq emb 3 ms hq
  simp only [retrieve_context]
  by_cases h : (search_knowledge sys.pinecone_manager emb 3).isEmpty
  · simp only [h, if_pos, _local_knowledge_search]
    exact List.length_take_le 3 _
  · simpa [h] using hv

/-- Witness for C5: the demo index truncates to the requested `top_k`, and
the retrieved context is within the budget. -/
theorem retrieved_context_at_most_three_witness :
    (retrieve_context vectorSystem "what to wear" [1]).length ≤ 3 :=
  retrieved_context_at_most_three vectorSystem "what to wear" [1] (by
    intro idx h e k ms hq
    cases h
    cases hq
    exact List.length_take_le k [demoMatch])

/-- C6: the vector-index component never raises past its boundary: with no
index handle, `search_knowledge` is `[]` and `upsert_knowledge` is `false`
(no oracle is consulted at all); with a handle, a raising query call
becomes `[]`, and a raising embedding step or upsert call becomes
`false`. -/
theorem vector_component_never_raises (pm : PineconeManager)
    (kb : WeatherKnowledgeBase) (emb : List ℚ) (k : Nat) :
    (pm.index = none →
      search_knowledge pm emb k = [] ∧ upsert_knowledge pm kb = false)
    ∧ (∀ idx e, pm.index = some idx → idx.query emb k = .error e →
        search_knowledge pm emb k = [])
    ∧ (∀ e, pm.index ≠ none → create_embeddings kb = .error e →
        upsert_knowledge pm kb = false)
    ∧ (∀ idx e, pm.index = some idx → (∀ vs, idx.upsert vs = .error e) →
        upsert_knowledge pm kb = false) := by
  refine ⟨?_, ?_, ?_, ?_⟩
  · intro h
    constructor
    · simp [search_knowledge, h]
    · simp [upsert_knowledge, h]
  · intro idx e hidx hq
    simp [search_knowledge, hidx, hq]
  · intro e hne hce
    cases hIdx : pm.index with
    | none => exact absurd hIdx hne
    | some idx => simp [upsert_knowledge, hIdx, hce]
  · intro idx e hidx hup
    simp only [upsert_knowledge, hidx]
    cases hce : create_embeddings kb with
    | error e' => rfl
    | ok embs => simp [hup]

/-- Witness for C6: with the index handle absent both operations
short-circuit. -/
theorem vector_component_never_raises_witness :
    search_knowledge ⟨none⟩ [] 3 = [] ∧ upsert_knowledge ⟨none⟩ fullKb = false :=
  (vector_component_never_raises ⟨none⟩ fullKb [] 3).1 rfl

/-- C8: `generate_response` never raises: with no client it answers the
fixed "not configured" message without consulting any oracle; with a
client whose call raises it answers the error-surfacing message (the
error text appended); a successful call's text is returned as-is. -/
theorem generate_response_never_raises (ai : ClaudeAI) (q : String)
    (ctx : List RetrievedPassage) (w : Option WeatherData) :
    (ai.client = none →
      generate_response ai q ctx w =
        "AI service is not configured. Please set up your Anthropic API key.")
    ∧ (∀ c e, ai.client = some c →
        c.create (build_prompt q ctx w) = .error e →
        generate_response ai q ctx w =
          "Sorry, I encountered an error generating a response: " ++ e)
    ∧ (∀ c t, ai.client = some c →
        c.create (build_prompt q ctx w) = .ok t →
        generate_response ai q ctx w = t) := by
  refine ⟨?_, ?_, ?_⟩
  · intro h
    simp [generate_response, h]
  · intro c e hc hcall
    simp [generate_response, hc, hcall]
  · intro c t hc hcall
    simp [generate_response, hc, hcall]

/-- Witness for C8: the unconfigured backend answers the fixed message. -/
theorem generate_response_never_raises_witness :
    generate_response ⟨none⟩ "What should I wear?" [] none =
      "AI service is not configured. Please set up your Anthropic API key." :=
  (generate_response_never_raises ⟨none⟩ "What should I wear?" [] none).1 rfl

set_option maxRecDepth 8000 in
/-- C1 counterexample: the coordinator passes a successful backend
completion through unchanged, so a backend answering the empty string
makes `answer_question` return the empty string. -/
theorem answer_question_empty_counterexample :
    answer_question emptyAnswerSystem "What should I wear?" none = "" := by
  rfl

/-- C1 amended: `answer_question` is a total function (every internal
failure is caught and converted to a string), and its result is non-empty
provided every successful backend completion is non-empty; in particular
the encode-failure, unconfigured-backend and backend-failure paths all
produce fixed non-empty apology strings. -/
theorem answer_question_total_and_nonempty (sys : WeatherRAGSystem) (q : String)
    (w : Option WeatherData)
    (hgen : ∀ c p t, sys.claude_ai.client = some c → c.create p = .ok t → t ≠ "") :
    answer_question sys q w ≠ "" := by
  cases he : sys.embedder q with
  | error e =>
    simp only [answer_question, he]
    exact append_ne_empty_left _ e (by decide)
  | ok emb =>
    simp only [answer_question, he, generate_response]
    cases hc : sys.claude_ai.client with
    | none =>
      simp only [hc]
      decide
    | some c =>
      simp only [hc]
      cases hcr : c.create (build_prompt q (retrieve_context sys q emb) w) with
      | error e =>
        simp only [hcr]
        exact append_ne_empty_left _ e (by decide)
      | ok t =>
        simp only [hcr]
        exact hgen c _ t hc hcr

/-- Witness for the amended C1: the fully-offline system still answers a
non-empty string. -/
theorem answer_question_total_and_nonempty_witness :
    answer_question offlineSystem "What should I wear?" none ≠ "" :=
  answer_question_total_and_nonempty offlineSystem "What should I wear?" none
    (by intro c p t hc; cases hc)

/-- A needle that is a prefix of the haystack occurs in it. -/
theorem pyInAux_of_isPrefixOf (n l : List Char) (h : n.isPrefixOf l = true) :
    pyInAux n l = true := by
  cases l with
  | nil => simpa [pyInAux] using h
  | cons c cs => simp [pyInAux, h]

/-- A needle occurring verbatim between two contexts is found. -/
theorem pyInAux_append (x n y : List Char) : pyInAux n (x ++ (n ++ y)) = true := by
  induction x with
  | nil =>
    apply pyInAux_of_isPrefixOf
    rw [List.isPrefixOf_iff_prefix]
    exact ⟨y, rfl⟩
  | cons c cs ih => simp [pyInAux, ih]

set_option maxRecDepth 8000 in
/-- C7 counterexample: with the weather reading entirely absent the
assembled prompt contains no `Current Weather Data` block at all, and the
present-but-empty reading (falsy in Python) also renders no block. -/
theorem weather_block_omitted_counterexample :
    pyIn "Current Weather Data" (build_prompt "What should I wear?" [] none) = false
    ∧ weather_context none = "" ∧ weather_context (some []) = "" := by
  refine ⟨by decide, rfl, rfl⟩

set_option maxRecDepth 8000 in
/-- C7 amended: the prompt contains the structured weather block exactly
when the reading is present and non-empty; in that case every missing
field is rendered through its placeholder default (`dict.get`) rather
than omitting the block, and assembly is total; absent or empty readings
render the block slot as the empty string. -/
theorem weather_block_when_truthy (q : String) (ctx : List RetrievedPassage)
    (wd : WeatherData) (h : wd.isEmpty = false) :
    weather_context (some wd) = weather_block wd
    ∧ pyIn "\nCurrent Weather Data:\n- Location: " (build_prompt q ctx (some wd)) = true
    ∧ (∀ key dflt, wd.find? (fun p => p.1 == key) = none → pyGet wd key dflt = dflt) := by
  have hwc : weather_context (some wd) = weather_block wd := by
    simp [weather_context, h]
  refine ⟨hwc, ?_, ?_⟩
  · simp only [build_prompt, hwc, weather_block, weather_context, h, Bool.false_eq_true,
      if_neg, not_false_eq_true, pyIn, String.data_append, String.append_assoc,
      List.append_assoc]
    exact pyInAux_append _ _ _
  · intro key dflt hfind
    simp [pyGet, hfind]

/-- Witness for the amended C7: a reading carrying only the city renders
the block, found inside the assembled prompt. -/
theorem weather_block_when_truthy_witness :
    pyIn "\nCurrent Weather Data:\n- Location: "
      (build_prompt "What should I wear?" [] (some [("city", "Denver")])) = true :=
  (weather_block_when_truthy "What should I wear?" [] [("city", "Denver")] rfl).2.1

/-- C9: prompt assembly preserves retrieval order: the prompt factors as a
fixed head, the bulleted passage contents rendered in list order, and a
fixed tail; the bullet rendering emits the first passage first and
recurses on the rest; and a non-empty vector result reaches generation in
exactly the order the index returned it, never re-sorted. -/
theorem prompt_preserves_retrieval_order (q : String) (ctx : List RetrievedPassage)
    (w : Option WeatherData) :
    (build_prompt q ctx w =
      "You are a helpful weather assistant. Answer the user's weather-related question using the provided context and current weather data.\n\n"
      ++ weather_context w ++ "\n\nRelevant Knowledge:\n"
      ++ joinLines (ctx.map (fun item => "- " ++ item.content))
      ++ "\n\nUser Question: " ++ q
      ++ "\n\nProvide a helpful, accurate, and conversational response. If asking about current weather, use the current weather data. If asking about clothing recommendations or safety, use the relevant knowledge. Keep responses concise but informative.")
    ∧ (∀ (p : RetrievedPassage) (rest : List RetrievedPassage),
        joinLines ((p :: rest).map (fun item => "- " ++ item.content)) =
          "- " ++ p.content ++
            (if rest.isEmpty then ""
             else "\n" ++ joinLines (rest.map (fun item => "- " ++ item.content))))
    ∧ (∀ (sys : WeatherRAGSystem) (idx : IndexHandle) (emb : List ℚ)
          (ms : List PineMatch),
        sys.embedder q = .ok emb →
        sys.pinecone_manager.index = some idx →
        idx.query emb 3 = .ok ms →
        ms ≠ [] →
        answer_question sys q w = generate_response sys.claude_ai q
          (ms.map (fun m =>
            ({ content := m.metadata.content, score := m.score,
               category := m.metadata.category } : RetrievedPassage))) w) := by
  refine ⟨rfl, ?_, ?_⟩
  · intro p rest
    cases rest with
    | nil => simp [joinLines]
    | cons r rs => simp [joinLines, String.append_assoc]
  · intro sys idx emb ms henc hidxEq hq hne
    have hsearch : search_knowledge sys.pinecone_manager emb 3 =
        ms.map (fun m =>
          ({ content := m.metadata.content, score := m.score,
             category := m.metadata.category } : RetrievedPassage)) := by
      simp [search_knowledge, hidxEq, hq]
    have hne' : ms.map (fun m =>
        ({ content := m.metadata.content, score := m.score,
           category := m.metadata.category } : RetrievedPassage)) ≠ [] := by
      simpa using hne
    have hfalse : (ms.map (fun m =>
        ({ content := m.metadata.content, score := m.score,
           category := m.metadata.category } : RetrievedPassage))).isEmpty = false :=
      List.isEmpty_eq_false.mpr hne'
    simp only [answer_question, henc, retrieve_context, hsearch, hfalse, Bool.false_eq_true,
      if_neg, not_false_eq_true]

/-- Witness for C9: the demo index's single match reaches generation
unchanged. -/
theorem prompt_preserves_retrieval_order_witness :
    answer_question vectorSystem "what to wear" none =
      generate_response vectorSystem.claude_ai "what to wear"
        ([demoMatch].map (fun m =>
          ({ content := m.metadata.content, score := m.score,
             category := m.metadata.category } : RetrievedPassage))) none :=
  (prompt_preserves_retrieval_order "what to wear" [] none).2.2 vectorSystem demoIndex
    [1] [demoMatch] rfl rfl rfl (by decide)

/-- C10: the text embedded for each corpus item is the content, a space
and the category — whenever the category is non-empty this differs from
the content alone — while the coordinator embeds the raw query text and
hands the resulting vector to retrieval unchanged. -/
theorem embedding_text_rule (enc : String → List ℚ) (items : List KnowledgeItem) :
    (create_embeddings ⟨fun t => .ok (enc t), items⟩ =
      .ok (items.map (fun item => (item.id, enc (item.content ++ " " ++ item.category)))))
    ∧ (∀ item : KnowledgeItem, item.category ≠ "" →
        item.content ++ " " ++ item.category ≠ item.content)
    ∧ (∀ (sys : WeatherRAGSystem) (q : String) (w : Option WeatherData) (emb : List ℚ),
        sys.embedder q = .ok emb →
        answer_question sys q w =
          generate_response sys.claude_ai q (retrieve_context sys q emb) w) := by
  refine ⟨?_, ?_, ?_⟩
  · simp only [create_embeddings]
    induction items with
    | nil => rfl
    | cons item rest ih =>
      rw [List.mapM_cons, ih]
      rfl
  · intro item hcat heq
    have hl := congrArg String.length heq
    rw [String.length_append, String.length_append] at hl
    have h1 : (" " : String).length = 1 := rfl
    have h2 : item.category.length ≠ 0 := by
      intro h0
      apply hcat
      apply String.ext
      exact List.length_eq_zero.mp h0
    omega
  · intro sys q w emb henc
    simp only [answer_question, henc]

/-- Witness for C10: a concrete item whose indexed text differs from its
content. -/
theorem embedding_text_rule_witness :
    demoItem.content ++ " " ++ demoItem.category ≠ demoItem.content :=
  (embedding_text_rule (fun _ => []) []).2.1 demoItem (by decide)

end WeatherApp
